import Mathlib

/-!
# Verification of the weather-time widget core logic

Shallow embedding of the two pure functions of the `weather-time`
repository — the condition-code-to-icon resolver `getIconFilename` and the
date/time formatter `formatDateTime` — together with a state-transition
model of the `fetchWeatherAndTime` operation.

The repository ships several variants of the component:
* `src/src/weather-time.tsx` holds two variants.  The first (lines 1–312,
  called "variant A" below) is embedded under the plain source names;
  the second (lines 313–809, "variant B") differs in the icon table
  (1003-day, 1006/1009, drizzle) and is embedded with an `Alt` suffix.
* `src/unnamed/part_000` holds two further variants whose icon table
  agrees with variant A and whose `formatDateTime` elides the minute
  field when it is zero; that formatter is embedded as
  `formatDateTimeNoZeroMin`.
-/

/-- The `timeOfDay : "day" | "night"` parameter of `getIconFilename`. -/
inductive TimeOfDay where
  | day
  | night
deriving DecidableEq, Fintype, Repr

/-- Embeds `getIconFilename` from `src/src/weather-time.tsx` (first
variant, lines 10–71): a total `switch` on the WeatherAPI condition code,
with day/night-sensitive branches for codes 1000 and 1003 and a
`default.svg` fallback.  The `switch` is rendered as an if-chain whose
conditions list the `case` labels of each fall-through group in source
order. -/
def getIconFilename (code : Int) (timeOfDay : TimeOfDay) : String :=
  if code = 1000 then
    if timeOfDay = TimeOfDay.day then "sunny.svg" else "clear-moon.svg"
  else if code = 1003 then
    if timeOfDay = TimeOfDay.day then "double-clouds.svg" else "partly-cloudy-moon.svg"
  else if code = 1006 ∨ code = 1009 then
    "cloudy.svg"
  else if code = 1030 ∨ code = 1135 ∨ code = 1147 then
    "mist.svg"
  else if code = 1063 ∨ code = 1072 ∨ code = 1150 ∨ code = 1153 ∨ code = 1168 ∨ code = 1171 then
    "drizzle.svg"
  else if code = 1180 ∨ code = 1183 ∨ code = 1186 ∨ code = 1189 ∨ code = 1192 ∨ code = 1195 ∨
          code = 1198 ∨ code = 1201 ∨ code = 1240 ∨ code = 1243 ∨ code = 1246 then
    "rain.svg"
  else if code = 1066 ∨ code = 1069 ∨ code = 1114 ∨ code = 1117 ∨ code = 1204 ∨ code = 1207 ∨
          code = 1210 ∨ code = 1213 ∨ code = 1216 ∨ code = 1219 ∨ code = 1222 ∨ code = 1225 ∨
          code = 1237 ∨ code = 1249 ∨ code = 1252 ∨ code = 1255 ∨ code = 1258 ∨ code = 1261 ∨
          code = 1264 then
    "snow.svg"
  else if code = 1087 ∨ code = 1273 ∨ code = 1276 ∨ code = 1279 ∨ code = 1282 then
    "thunderstorm.svg"
  else
    "default.svg"

/-- Embeds `getIconFilename` from `src/src/weather-time.tsx` (second
variant, lines 322–384).  It differs from the first variant in three
places: 1003 by day yields `partly-cloudy-sun.svg`, codes 1006 and 1009
yield the two distinct icons `cloudy.svg` and `double-clouds.svg`, and
the drizzle group is day/night-sensitive (`drizzle.svg` /
`drizzle-moon.svg`). -/
def getIconFilenameAlt (code : Int) (timeOfDay : TimeOfDay) : String :=
  if code = 1000 then
    if timeOfDay = TimeOfDay.day then "sunny.svg" else "clear-moon.svg"
  else if code = 1003 then
    if timeOfDay = TimeOfDay.day then "partly-cloudy-sun.svg" else "partly-cloudy-moon.svg"
  else if code = 1006 then
    "cloudy.svg"
  else if code = 1009 then
    "double-clouds.svg"
  else if code = 1030 ∨ code = 1135 ∨ code = 1147 then
    "mist.svg"
  else if code = 1063 ∨ code = 1072 ∨ code = 1150 ∨ code = 1153 ∨ code = 1168 ∨ code = 1171 then
    if timeOfDay = TimeOfDay.day then "drizzle.svg" else "drizzle-moon.svg"
  else if code = 1180 ∨ code = 1183 ∨ code = 1186 ∨ code = 1189 ∨ code = 1192 ∨ code = 1195 ∨
          code = 1198 ∨ code = 1201 ∨ code = 1240 ∨ code = 1243 ∨ code = 1246 then
    "rain.svg"
  else if code = 1066 ∨ code = 1069 ∨ code = 1114 ∨ code = 1117 ∨ code = 1204 ∨ code = 1207 ∨
          code = 1210 ∨ code = 1213 ∨ code = 1216 ∨ code = 1219 ∨ code = 1222 ∨ code = 1225 ∨
          code = 1237 ∨ code = 1249 ∨ code = 1252 ∨ code = 1255 ∨ code = 1258 ∨ code = 1261 ∨
          code = 1264 then
    "snow.svg"
  else if code = 1087 ∨ code = 1273 ∨ code = 1276 ∨ code = 1279 ∨ code = 1282 then
    "thunderstorm.svg"
  else
    "default.svg"

/-- The codes of the clear family (`case 1000`). -/
def clearCodes : List Int := [1000]

/-- The codes of the partly-cloudy family (`case 1003`). -/
def partlyCloudyCodes : List Int := [1003]

/-- The codes of the cloudy/overcast family (`case 1006`, `case 1009`). -/
def cloudyCodes : List Int := [1006, 1009]

/-- The codes of the mist/fog family. -/
def mistCodes : List Int := [1030, 1135, 1147]

/-- The codes of the drizzle family. -/
def drizzleCodes : List Int := [1063, 1072, 1150, 1153, 1168, 1171]

/-- The codes of the rain family. -/
def rainCodes : List Int :=
  [1180, 1183, 1186, 1189, 1192, 1195, 1198, 1201, 1240, 1243, 1246]

/-- The codes of the snow/sleet/ice family. -/
def snowCodes : List Int :=
  [1066, 1069, 1114, 1117, 1204, 1207, 1210, 1213, 1216, 1219, 1222, 1225,
   1237, 1249, 1252, 1255, 1258, 1261, 1264]

/-- The codes of the thunderstorm family. -/
def thunderstormCodes : List Int := [1087, 1273, 1276, 1279, 1282]

/-- All condition codes appearing as a `case` label in any documented
family of `getIconFilename`; both variants switch on exactly this set. -/
def documentedCodes : List Int :=
  clearCodes ++ partlyCloudyCodes ++ cloudyCodes ++ mistCodes ++ drizzleCodes ++
  rainCodes ++ snowCodes ++ thunderstormCodes

/-- A point in time as `formatDateTime` observes it through the JS `Date`
accessors: `getMonth()` (0–11), `getDate()` (1–31), `getHours()` (0–23),
`getMinutes()` (0–59).  Variant A also reads `getSeconds()` but never uses
the value, so seconds are omitted. -/
structure Moment where
  month : Nat
  day : Nat
  hour : Nat
  minute : Nat
deriving DecidableEq, Repr

/-- Embeds `date.toLocaleString("en-US", \x7b month: "short" \x7d)` as a
function of the month index returned by `getMonth()`. -/
def monthShort (m : Nat) : String :=
  ["Jan", "Feb", "Mar", "Apr", "May", "Jun",
   "Jul", "Aug", "Sep", "Oct", "Nov", "Dec"].getD m ""

/-- Embeds the local `getOrdinalSuffix` of `formatDateTime`
(`src/src/weather-time.tsx` lines 84–89, identical in all variants). -/
def getOrdinalSuffix (n : Nat) : String :=
  if n % 10 = 1 ∧ n % 100 ≠ 11 then "st"
  else if n % 10 = 2 ∧ n % 100 ≠ 12 then "nd"
  else if n % 10 = 3 ∧ n % 100 ≠ 13 then "rd"
  else "th"

/-- Embeds `date.getHours() % 12 || 12`: the remainder mod 12 when that is
nonzero, and 12 when the remainder is zero (JS `||` replaces the falsy 0). -/
def hours12 (h : Nat) : Nat :=
  if h % 12 = 0 then 12 else h % 12

/-- Embeds `date.getHours() >= 12 ? "pm" : "am"`. -/
def ampmOf (h : Nat) : String :=
  if 12 ≤ h then "pm" else "am"

/-- Embeds the JS `String.prototype.toLowerCase()` call applied to
condition texts (ASCII is all that occurs here): lowercase every
character. -/
def toLowerCase (s : String) : String :=
  String.mk (s.data.map Char.toLower)

/-- Embeds `s.padStart(2, "0")`: prepend `'0'` until the length is 2. -/
def padStart2 (s : String) : String :=
  if 2 ≤ s.length then s
  else String.mk (List.replicate (2 - s.length) '0') ++ s

/-- Embeds `minutes.toString().padStart(2, "0")`, the minute field of the
formatted time string. -/
def minuteField (m : Nat) : String :=
  padStart2 (Nat.repr m)

/-- Embeds `formatDateTime` from `src/src/weather-time.tsx` (both of its
variants agree, lines 76–96 and 389–405): always renders the minute field,
producing `"<Mon> <day><suffix>, <h>:<mm><am|pm>"`. -/
def formatDateTime (date : Moment) : String :=
  monthShort date.month ++ " " ++ Nat.repr date.day ++ getOrdinalSuffix date.day ++
  ", " ++ Nat.repr (hours12 date.hour) ++ ":" ++ minuteField date.minute ++ ampmOf date.hour

/-- Embeds `formatDateTime` from `src/unnamed/part_000` (both of its
variants agree, lines 95–116 and 386–407): identical to `formatDateTime`
except that when the minute value is 0 the `":<mm>"` part is omitted
entirely (`"9am"` instead of `"9:00am"`). -/
def formatDateTimeNoZeroMin (date : Moment) : String :=
  monthShort date.month ++ " " ++ Nat.repr date.day ++ getOrdinalSuffix date.day ++
  ", " ++
  (if date.minute = 0 then
    Nat.repr (hours12 date.hour) ++ ampmOf date.hour
  else
    Nat.repr (hours12 date.hour) ++ ":" ++ minuteField date.minute ++ ampmOf date.hour)

/-- The fields of the weather-API JSON that `fetchWeatherAndTime` reads.
`ok` models `response.ok`; `hasCondition` models the guard
`data && data.current && data.current.condition`; `code` models
`data.current.condition.code`, with 0 standing for the falsy values
(0 or absent); `country` models `data.location?.country`. -/
structure ApiResponse where
  ok : Bool
  hasCondition : Bool
  conditionText : String
  temp_c : Rat
  temp_f : Rat
  country : Option String
  code : Int
  is_day : Int

/-- The display state that `fetchWeatherAndTime` writes through its
`set*` calls (condition, temperatures, unit flag, local time, icon URL). -/
structure WidgetState where
  condition : String
  temperatureC : Option Rat
  temperatureF : Option Rat
  isFahrenheit : Bool
  localTime : Option Moment
  iconUrl : String
deriving Repr

/-- `defaultCondition` of the component. -/
def defaultCondition : String := "Patchy light snow"

/-- `defaultTemperatureC` of the component. -/
def defaultTemperatureC : Rat := 27

/-- `defaultTemperatureF = (27 * 9) / 5 + 32` of the component. -/
def defaultTemperatureF : Rat := (27 * 9) / 5 + 32

/-- `LOCAL_BASE`, the base path prepended to icon file names in variant A. -/
def LOCAL_BASE : String := "./weather"

/-- The possible outcomes of the secondary time-API interaction that
`fetchWeatherAndTime` performs inside its `try` block after the weather
data has been accepted (lines 160–183): `noCoords` — `data.location` or
its `lat`/`lon` is missing, so the call is skipped; `threw` — the
`await fetch(...)` rejected (network failure) or
`await timeResponse.json()` threw, so control jumps to the top-level
`catch`; `notOk` — `timeResponse.ok` is false; `okNoDateTime` — the
response carries no `dateTime` field; `okDateTime t` — the response's
`dateTime` parsed to the moment `t`. -/
inductive TimeApiOutcome where
  | noCoords
  | threw
  | notOk
  | okNoDateTime
  | okDateTime (t : Moment)
deriving DecidableEq, Repr

/-- The state installed by the `catch` block of `fetchWeatherAndTime`
(lines 187–195): the fixed fallback condition and temperatures, the unit
flag reset, local time set to the current time, and the default icon. -/
def fallbackState (now : Moment) : WidgetState :=
  { condition := toLowerCase defaultCondition
    temperatureC := some defaultTemperatureC
    temperatureF := some defaultTemperatureF
    isFahrenheit := false
    localTime := some now
    iconUrl := LOCAL_BASE ++ "/default.svg" }

/-- Embeds `fetchWeatherAndTime` of `src/src/weather-time.tsx` (variant A,
lines 129–196) as a state transition.  `resp` is the weather-API response
(`ok := false` models a non-ok response or a weather-call network error,
`hasCondition := false` a response failing the guard
`data && data.current && data.current.condition`, including a throwing
`response.json()` — all reach the same `catch`); `timeApi` is the outcome
of the secondary time-API interaction; `now` is the current time.  Any
throw lands in the `catch` block, which installs the fixed fallback
state; in particular, when the time-API call throws
(`TimeApiOutcome.threw`), the `set*` calls of the success path have
already run but the `catch` then overwrites every one of those fields, so
the resulting state is the full fallback.  Otherwise the success state
stands: the condition text is lowercased, the unit flag is set from the
country, the condition code has falsy values replaced by 1000
(`code || 1000`), the icon URL is `LOCAL_BASE` plus the resolved file
name, and the local time is the parsed `dateTime` when one arrived and
`new Date()` in the non-throwing fallback branches. -/
def fetchWeatherAndTime (resp : ApiResponse) (timeApi : TimeApiOutcome) (now : Moment) :
    WidgetState :=
  if resp.ok ∧ resp.hasCondition then
    if timeApi = TimeApiOutcome.threw then
      fallbackState now
    else
      { condition := toLowerCase resp.conditionText
        temperatureC := some resp.temp_c
        temperatureF := some resp.temp_f
        isFahrenheit := resp.country == some "United States of America"
        localTime := some (match timeApi with
          | TimeApiOutcome.okDateTime t => t
          | _ => now)
        iconUrl := LOCAL_BASE ++ "/" ++
          getIconFilename (if resp.code = 0 then 1000 else resp.code)
            (if resp.is_day = 1 then TimeOfDay.day else TimeOfDay.night) }
  else
    fallbackState now

/-- Embeds `const temperature = isFahrenheit ? temperatureF : temperatureC`,
the temperature value the component displays. -/
def temperatureShown (s : WidgetState) : Option Rat :=
  if s.isFahrenheit then s.temperatureF else s.temperatureC

/-- Embeds `const dateTimeString = localTime ? formatDateTime(localTime) :
formatDateTime(new Date())`, the time string the component displays. -/
def dateTimeString (s : WidgetState) (now : Moment) : String :=
  match s.localTime with
  | some t => formatDateTime t
  | none => formatDateTime now

/-- A concrete failing fetch: the HTTP response is not ok. -/
def failResp : ApiResponse :=
  { ok := false, hasCondition := true, conditionText := "Sunny",
    temp_c := 21, temp_f := 698/10, country := some "France",
    code := 1000, is_day := 1 }

/-- A concrete successful fetch: partly cloudy (code 1003) by day in the
United States, 26.85 °C (the 300 K equivalent). -/
def okUSAResp : ApiResponse :=
  { ok := true, hasCondition := true, conditionText := "Partly cloudy",
    temp_c := 537/20, temp_f := 8033/100, country := some "United States of America",
    code := 1003, is_day := 1 }

/-- A concrete successful fetch whose condition code is the falsy 0. -/
def zeroCodeResp : ApiResponse :=
  { ok := true, hasCondition := true, conditionText := "Sunny",
    temp_c := 25, temp_f := 77, country := some "Australia",
    code := 0, is_day := 1 }

set_option maxHeartbeats 1600000 in
/-- C1: for every integer condition code outside every documented weather
family and both values of the day/night flag, the icon resolver (in both
variants) returns the designated default identifier `"default.svg"`; the
function is total (a Lean `def` over all of `Int`) and never returns the
empty string. -/
theorem claim1_unrecognized_code_default (code : Int) (t : TimeOfDay)
    (h : code ∉ documentedCodes) :
    getIconFilename code t = "default.svg" ∧
    getIconFilenameAlt code t = "default.svg" ∧
    getIconFilename code t ≠ "" := by
  simp only [documentedCodes, clearCodes, partlyCloudyCodes, cloudyCodes, mistCodes,
    drizzleCodes, rainCodes, snowCodes, thunderstormCodes, List.mem_append, List.mem_cons,
    List.not_mem_nil, or_false, List.mem_singleton] at h
  have h1 : getIconFilename code t = "default.svg" := by
    unfold getIconFilename
    split_ifs <;> first | rfl | (exfalso; omega)
  have h2 : getIconFilenameAlt code t = "default.svg" := by
    unfold getIconFilenameAlt
    split_ifs <;> first | rfl | (exfalso; omega)
  exact ⟨h1, h2, by rw [h1]; decide⟩

/-- Witness for C1 at the concrete unrecognized code 9999. -/
theorem claim1_unrecognized_code_default_witness :
    (9999 : Int) ∉ documentedCodes ∧
    (getIconFilename 9999 TimeOfDay.night = "default.svg" ∧
     getIconFilenameAlt 9999 TimeOfDay.night = "default.svg" ∧
     getIconFilename 9999 TimeOfDay.night ≠ "") :=
  ⟨by decide, claim1_unrecognized_code_default 9999 TimeOfDay.night (by decide)⟩

/-- C2 counterexample: in the second `weather-time.tsx` variant of
`getIconFilename` (lines 328–331, cited by the claim), the two codes of
the cloudy/overcast family do not yield one single identifier: 1006 yields
`cloudy.svg` but 1009 yields `double-clouds.svg`. -/
theorem claim2_counterexample :
    getIconFilenameAlt 1006 TimeOfDay.day = "cloudy.svg" ∧
    getIconFilenameAlt 1009 TimeOfDay.day = "double-clouds.svg" ∧
    getIconFilenameAlt 1009 TimeOfDay.day ≠ getIconFilenameAlt 1006 TimeOfDay.day := by
  decide

/-- C2 (amended): in the first `getIconFilename` variant, every code of a
documented day/night-invariant family maps to that family's single
identifier under both flags — in particular 1006 and 1009 both yield
`cloudy.svg`.  In the second variant the same holds for the mist, rain,
snow and thunderstorm families, but the cloudy/overcast family splits
(1006 yields `cloudy.svg`, 1009 yields `double-clouds.svg`, each
flag-invariant) and the drizzle family is day/night-sensitive
(`drizzle.svg` by day, `drizzle-moon.svg` by night). -/
theorem claim2_amended_family_icons :
    (∀ c ∈ cloudyCodes, ∀ t, getIconFilename c t = "cloudy.svg") ∧
    (∀ c ∈ mistCodes, ∀ t,
      getIconFilename c t = "mist.svg" ∧ getIconFilenameAlt c t = "mist.svg") ∧
    (∀ c ∈ drizzleCodes, ∀ t, getIconFilename c t = "drizzle.svg") ∧
    (∀ c ∈ rainCodes, ∀ t,
      getIconFilename c t = "rain.svg" ∧ getIconFilenameAlt c t = "rain.svg") ∧
    (∀ c ∈ snowCodes, ∀ t,
      getIconFilename c t = "snow.svg" ∧ getIconFilenameAlt c t = "snow.svg") ∧
    (∀ c ∈ thunderstormCodes, ∀ t,
      getIconFilename c t = "thunderstorm.svg" ∧ getIconFilenameAlt c t = "thunderstorm.svg") ∧
    (∀ t, getIconFilenameAlt 1006 t = "cloudy.svg") ∧
    (∀ t, getIconFilenameAlt 1009 t = "double-clouds.svg") ∧
    (∀ c ∈ drizzleCodes,
      getIconFilenameAlt c TimeOfDay.day = "drizzle.svg" ∧
      getIconFilenameAlt c TimeOfDay.night = "drizzle-moon.svg") := by
  decide

/-- Witness for C2 (amended) at the concrete code 1009 of the
cloudy/overcast family. -/
theorem claim2_amended_family_icons_witness :
    (1009 : Int) ∈ cloudyCodes ∧ getIconFilename 1009 TimeOfDay.night = "cloudy.svg" :=
  ⟨by decide, claim2_amended_family_icons.1 1009 (by decide) TimeOfDay.night⟩

/-- C3: the day/night-sensitive families produce two different,
specifically-documented identifiers under the two flags — code 1000
yields `sunny.svg` by day and `clear-moon.svg` by night in both variants;
code 1003 yields `double-clouds.svg` / `partly-cloudy-moon.svg` in the
first variant and `partly-cloudy-sun.svg` / `partly-cloudy-moon.svg` in
the second; in the second variant every drizzle code also differs between
day and night — while every code outside these families is independent of
the flag. -/
theorem claim3_day_night_sensitivity :
    (getIconFilename 1000 TimeOfDay.day = "sunny.svg" ∧
     getIconFilename 1000 TimeOfDay.night = "clear-moon.svg" ∧
     getIconFilename 1003 TimeOfDay.day = "double-clouds.svg" ∧
     getIconFilename 1003 TimeOfDay.night = "partly-cloudy-moon.svg" ∧
     getIconFilenameAlt 1000 TimeOfDay.day = "sunny.svg" ∧
     getIconFilenameAlt 1000 TimeOfDay.night = "clear-moon.svg" ∧
     getIconFilenameAlt 1003 TimeOfDay.day = "partly-cloudy-sun.svg" ∧
     getIconFilenameAlt 1003 TimeOfDay.night = "partly-cloudy-moon.svg" ∧
     getIconFilename 1000 TimeOfDay.day ≠ getIconFilename 1000 TimeOfDay.night ∧
     getIconFilename 1003 TimeOfDay.day ≠ getIconFilename 1003 TimeOfDay.night ∧
     getIconFilenameAlt 1000 TimeOfDay.day ≠ getIconFilenameAlt 1000 TimeOfDay.night ∧
     getIconFilenameAlt 1003 TimeOfDay.day ≠ getIconFilenameAlt 1003 TimeOfDay.night) ∧
    (∀ c ∈ drizzleCodes,
      getIconFilenameAlt c TimeOfDay.day ≠ getIconFilenameAlt c TimeOfDay.night) ∧
    (∀ code : Int, code ≠ 1000 → code ≠ 1003 →
      getIconFilename code TimeOfDay.day = getIconFilename code TimeOfDay.night) ∧
    (∀ code : Int, code ≠ 1000 → code ≠ 1003 → code ∉ drizzleCodes →
      getIconFilenameAlt code TimeOfDay.day = getIconFilenameAlt code TimeOfDay.night) := by
  refine ⟨by decide, by decide, ?_, ?_⟩
  · intro code h1 h2
    simp only [getIconFilename, if_neg h1, if_neg h2]
  · intro code h1 h2 h3
    have hd : ¬(code = 1063 ∨ code = 1072 ∨ code = 1150 ∨ code = 1153 ∨
        code = 1168 ∨ code = 1171) := by
      intro hc
      exact h3 (by rcases hc with rfl | rfl | rfl | rfl | rfl | rfl <;> decide)
    simp only [getIconFilenameAlt, if_neg h1, if_neg h2, if_neg hd]

/-- Witness for C3: the flag-invariance parts applied at the concrete
code 1006 and the drizzle-sensitivity part at the concrete code 1063. -/
theorem claim3_day_night_sensitivity_witness :
    ((1006 : Int) ≠ 1000 ∧ (1006 : Int) ≠ 1003 ∧ (1006 : Int) ∉ drizzleCodes ∧
     (1063 : Int) ∈ drizzleCodes) ∧
    getIconFilename 1006 TimeOfDay.day = getIconFilename 1006 TimeOfDay.night ∧
    getIconFilenameAlt 1006 TimeOfDay.day = getIconFilenameAlt 1006 TimeOfDay.night ∧
    getIconFilenameAlt 1063 TimeOfDay.day ≠ getIconFilenameAlt 1063 TimeOfDay.night :=
  ⟨⟨by decide, by decide, by decide, by decide⟩,
   claim3_day_night_sensitivity.2.2.1 1006 (by decide) (by decide),
   claim3_day_night_sensitivity.2.2.2 1006 (by decide) (by decide) (by decide),
   claim3_day_night_sensitivity.2.1 1063 (by decide)⟩

/-- C4: for every day-of-month `n`, `getOrdinalSuffix` returns `"st"`
exactly when `n` ends in 1 but `n % 100 ≠ 11`, `"nd"` exactly when `n`
ends in 2 but `n % 100 ≠ 12`, `"rd"` exactly when `n` ends in 3 but
`n % 100 ≠ 13`, and `"th"` in every remaining case; in particular days
1, 2, 3, 4, 11, 12, 13, 21, 22, 23 produce st, nd, rd, th, th, th, th,
st, nd, rd. -/
theorem claim4_ordinal_suffix (n : Nat) :
    (getOrdinalSuffix n = "st" ↔ n % 10 = 1 ∧ n % 100 ≠ 11) ∧
    (getOrdinalSuffix n = "nd" ↔ n % 10 = 2 ∧ n % 100 ≠ 12) ∧
    (getOrdinalSuffix n = "rd" ↔ n % 10 = 3 ∧ n % 100 ≠ 13) ∧
    (getOrdinalSuffix n = "th" ↔
      ¬(n % 10 = 1 ∧ n % 100 ≠ 11) ∧ ¬(n % 10 = 2 ∧ n % 100 ≠ 12) ∧
      ¬(n % 10 = 3 ∧ n % 100 ≠ 13)) ∧
    [1, 2, 3, 4, 11, 12, 13, 21, 22, 23].map getOrdinalSuffix =
      ["st", "nd", "rd", "th", "th", "th", "th", "st", "nd", "rd"] := by
  refine ⟨?_, ?_, ?_, ?_, by decide⟩ <;>
    (unfold getOrdinalSuffix; split_ifs <;> simp_all)

/-- C5: the formatter uses a 12-hour clock with lowercase am/pm — a
moment with hour 0 renders hour component `12` with suffix `am`, hour 12
renders `12` with `pm`, and every hour `h` in 1..11 renders as `h` with
`am` while `h + 12` renders as `h` with `pm`. -/
theorem claim5_twelve_hour_clock :
    (∀ mo d min, formatDateTime ⟨mo, d, 0, min⟩ =
      monthShort mo ++ " " ++ Nat.repr d ++ getOrdinalSuffix d ++ ", " ++
      "12" ++ ":" ++ minuteField min ++ "am") ∧
    (∀ mo d min, formatDateTime ⟨mo, d, 12, min⟩ =
      monthShort mo ++ " " ++ Nat.repr d ++ getOrdinalSuffix d ++ ", " ++
      "12" ++ ":" ++ minuteField min ++ "pm") ∧
    (∀ h, 1 ≤ h → h ≤ 11 →
      hours12 h = h ∧ ampmOf h = "am" ∧
      hours12 (h + 12) = h ∧ ampmOf (h + 12) = "pm") ∧
    hours12 0 = 12 ∧ ampmOf 0 = "am" ∧ hours12 12 = 12 ∧ ampmOf 12 = "pm" := by
  refine ⟨?_, ?_, ?_, by decide, by decide, by decide, by decide⟩
  · intro mo d min
    show monthShort mo ++ " " ++ Nat.repr d ++ getOrdinalSuffix d ++ ", " ++
      Nat.repr (hours12 0) ++ ":" ++ minuteField min ++ ampmOf 0 = _
    rw [(by decide : Nat.repr (hours12 0) = "12"), (by decide : ampmOf 0 = "am")]
  · intro mo d min
    show monthShort mo ++ " " ++ Nat.repr d ++ getOrdinalSuffix d ++ ", " ++
      Nat.repr (hours12 12) ++ ":" ++ minuteField min ++ ampmOf 12 = _
    rw [(by decide : Nat.repr (hours12 12) = "12"), (by decide : ampmOf 12 = "pm")]
  intro h h1 h2
  have e1 : h % 12 = h := Nat.mod_eq_of_lt (by omega)
  have e2 : (h + 12) % 12 = h := by omega
  refine ⟨?_, ?_, ?_, ?_⟩
  · unfold hours12; rw [e1, if_neg (by omega)]
  · unfold ampmOf; rw [if_neg (by omega)]
  · unfold hours12; rw [e2, if_neg (by omega)]
  · unfold ampmOf; rw [if_pos (by omega)]

/-- Witness for C5 at the concrete hour 9. -/
theorem claim5_twelve_hour_clock_witness :
    1 ≤ 9 ∧ 9 ≤ 11 ∧
    (hours12 9 = 9 ∧ ampmOf 9 = "am" ∧ hours12 (9 + 12) = 9 ∧ ampmOf (9 + 12) = "pm") :=
  ⟨by decide, by decide, claim5_twelve_hour_clock.2.2.1 9 (by decide) (by decide)⟩

/-- C6: whenever a minute field is rendered it is exactly two zero-padded
digits — `minuteField` of any minute below 60 has length 2 and equals the
zero-padded decimal; minute 5 renders `"05"` and minute 45 renders
`"45"`, for every month, day and hour, in the always-show-minutes
formatter and, for nonzero minutes, in the minute-eliding formatter. -/
theorem claim6_minute_padding :
    (∀ m, m < 60 →
      (minuteField m).length = 2 ∧
      minuteField m = (if m < 10 then "0" ++ Nat.repr m else Nat.repr m)) ∧
    minuteField 5 = "05" ∧ minuteField 45 = "45" ∧
    (∀ mo d h, formatDateTime ⟨mo, d, h, 5⟩ =
      monthShort mo ++ " " ++ Nat.repr d ++ getOrdinalSuffix d ++ ", " ++
      Nat.repr (hours12 h) ++ ":" ++ "05" ++ ampmOf h) ∧
    (∀ mo d h, formatDateTime ⟨mo, d, h, 45⟩ =
      monthShort mo ++ " " ++ Nat.repr d ++ getOrdinalSuffix d ++ ", " ++
      Nat.repr (hours12 h) ++ ":" ++ "45" ++ ampmOf h) ∧
    (∀ mo d h m, m ≠ 0 → formatDateTimeNoZeroMin ⟨mo, d, h, m⟩ =
      monthShort mo ++ " " ++ Nat.repr d ++ getOrdinalSuffix d ++ ", " ++
      (Nat.repr (hours12 h) ++ ":" ++ minuteField m ++ ampmOf h)) := by
  refine ⟨by decide, by decide, by decide, ?_, ?_, ?_⟩
  · intro mo d h
    show monthShort mo ++ " " ++ Nat.repr d ++ getOrdinalSuffix d ++ ", " ++
      Nat.repr (hours12 h) ++ ":" ++ minuteField 5 ++ ampmOf h = _
    rw [(by decide : minuteField 5 = "05")]
  · intro mo d h
    show monthShort mo ++ " " ++ Nat.repr d ++ getOrdinalSuffix d ++ ", " ++
      Nat.repr (hours12 h) ++ ":" ++ minuteField 45 ++ ampmOf h = _
    rw [(by decide : minuteField 45 = "45")]
  · intro mo d h m hm
    simp only [formatDateTimeNoZeroMin]
    rw [if_neg hm]

/-- Witness for C6 at minute 45 and the minute-eliding formatter at the
concrete moment Nov 26th, 9:45. -/
theorem claim6_minute_padding_witness :
    (45 < 60 ∧ ((minuteField 45).length = 2 ∧
      minuteField 45 = (if 45 < 10 then "0" ++ Nat.repr 45 else Nat.repr 45))) ∧
    ((45 : Nat) ≠ 0 ∧ formatDateTimeNoZeroMin ⟨10, 26, 9, 45⟩ =
      monthShort 10 ++ " " ++ Nat.repr 26 ++ getOrdinalSuffix 26 ++ ", " ++
      (Nat.repr (hours12 9) ++ ":" ++ minuteField 45 ++ ampmOf 9)) :=
  ⟨⟨by decide, claim6_minute_padding.1 45 (by decide)⟩,
   ⟨by decide, claim6_minute_padding.2.2.2.2.2 10 26 9 45 (by decide)⟩⟩

/-- C9: for every moment whose minute value is nonzero, the
always-show-minutes formatter (`formatDateTime`, from
`src/src/weather-time.tsx`) and the zero-minute-eliding formatter
(`formatDateTimeNoZeroMin`, from `src/unnamed/part_000`) produce the
identical string; when the minute is zero they differ exactly by the
omitted `":<mm>"` part — at 9:00 the eliding variant renders
`"… 9am"` while the other renders `"… 9:00am"`. -/
theorem claim9_minute_elision_refinement :
    (∀ date : Moment, date.minute ≠ 0 →
      formatDateTime date = formatDateTimeNoZeroMin date) ∧
    (∀ date : Moment, date.minute = 0 →
      formatDateTimeNoZeroMin date =
        monthShort date.month ++ " " ++ Nat.repr date.day ++
        getOrdinalSuffix date.day ++ ", " ++
        (Nat.repr (hours12 date.hour) ++ ampmOf date.hour) ∧
      formatDateTime date =
        monthShort date.month ++ " " ++ Nat.repr date.day ++
        getOrdinalSuffix date.day ++ ", " ++
        Nat.repr (hours12 date.hour) ++ ":" ++ "00" ++ ampmOf date.hour) ∧
    formatDateTime ⟨10, 26, 9, 0⟩ = "Nov 26th, 9:00am" ∧
    formatDateTimeNoZeroMin ⟨10, 26, 9, 0⟩ = "Nov 26th, 9am" := by
  refine ⟨?_, ?_, by decide, by decide⟩
  · intro date hm
    unfold formatDateTime formatDateTimeNoZeroMin
    rw [if_neg hm]
    simp [String.append_assoc]
  · intro date hm
    unfold formatDateTime formatDateTimeNoZeroMin
    rw [if_pos hm, hm]
    exact ⟨rfl, by rw [(by decide : minuteField 0 = "00")]⟩

/-- Witness for C9 at the concrete moments Nov 26th 9:05 and Nov 26th
9:00. -/
theorem claim9_minute_elision_refinement_witness :
    ((Moment.mk 10 26 9 5).minute ≠ 0 ∧
      formatDateTime ⟨10, 26, 9, 5⟩ = formatDateTimeNoZeroMin ⟨10, 26, 9, 5⟩) ∧
    ((Moment.mk 10 26 9 0).minute = 0 ∧
      formatDateTimeNoZeroMin ⟨10, 26, 9, 0⟩ =
        monthShort 10 ++ " " ++ Nat.repr 26 ++ getOrdinalSuffix 26 ++ ", " ++
        (Nat.repr (hours12 9) ++ ampmOf 9) ∧
      formatDateTime ⟨10, 26, 9, 0⟩ =
        monthShort 10 ++ " " ++ Nat.repr 26 ++ getOrdinalSuffix 26 ++ ", " ++
        Nat.repr (hours12 9) ++ ":" ++ "00" ++ ampmOf 9) :=
  ⟨⟨by decide, claim9_minute_elision_refinement.1 ⟨10, 26, 9, 5⟩ (by decide)⟩,
   ⟨by decide, claim9_minute_elision_refinement.2.1 ⟨10, 26, 9, 0⟩ (by decide)⟩⟩

/-- C7: every fetch failure — a weather-call network error or non-ok
response (`resp.ok = false`), missing expected fields
(`resp.hasCondition = false`), or a throwing time-API call
(`timeApi = TimeApiOutcome.threw`, the network error of the second
remote call) — lands in the `catch` block and installs the single fixed
fallback display state: condition is the lowercased fallback string
`"patchy light snow"`, stored and displayed temperature is the fallback
Celsius value 27 with the Fahrenheit flag reset to false, local time is
the current time (so the displayed time string is that of `now`), and
the icon is the default identifier.  The resulting state is an ordinary
display state; no error indicator exists in the state. -/
theorem claim7_fetch_failure_fallback (resp : ApiResponse) (timeApi : TimeApiOutcome)
    (now : Moment)
    (h : resp.ok = false ∨ resp.hasCondition = false ∨ timeApi = TimeApiOutcome.threw) :
    (fetchWeatherAndTime resp timeApi now).condition = "patchy light snow" ∧
    (fetchWeatherAndTime resp timeApi now).temperatureC = some 27 ∧
    (fetchWeatherAndTime resp timeApi now).isFahrenheit = false ∧
    temperatureShown (fetchWeatherAndTime resp timeApi now) = some 27 ∧
    (fetchWeatherAndTime resp timeApi now).localTime = some now ∧
    dateTimeString (fetchWeatherAndTime resp timeApi now) now = formatDateTime now ∧
    (fetchWeatherAndTime resp timeApi now).iconUrl = LOCAL_BASE ++ "/default.svg" := by
  have hfall : fetchWeatherAndTime resp timeApi now = fallbackState now := by
    unfold fetchWeatherAndTime
    by_cases h1 : resp.ok = true ∧ resp.hasCondition = true
    · have h2 : timeApi = TimeApiOutcome.threw := by
        rcases h with h | h | h
        · rw [h] at h1; simp at h1
        · rw [h] at h1; simp at h1
        · exact h
      rw [if_pos h1, if_pos h2]
    · rw [if_neg h1]
  rw [hfall]
  refine ⟨?_, rfl, rfl, rfl, rfl, rfl, rfl⟩
  show toLowerCase defaultCondition = "patchy light snow"
  decide

/-- Witness for C7 at the concrete successful weather response
`okUSAResp` whose time-API call throws, at the moment Nov 26th, 9:05:
the whole state collapses to the fallback. -/
theorem claim7_fetch_failure_fallback_witness :
    (okUSAResp.ok = false ∨ okUSAResp.hasCondition = false ∨
      TimeApiOutcome.threw = TimeApiOutcome.threw) ∧
    ((fetchWeatherAndTime okUSAResp TimeApiOutcome.threw ⟨10, 26, 9, 5⟩).condition =
       "patchy light snow" ∧
     (fetchWeatherAndTime okUSAResp TimeApiOutcome.threw ⟨10, 26, 9, 5⟩).temperatureC =
       some 27 ∧
     (fetchWeatherAndTime okUSAResp TimeApiOutcome.threw ⟨10, 26, 9, 5⟩).isFahrenheit =
       false ∧
     temperatureShown (fetchWeatherAndTime okUSAResp TimeApiOutcome.threw ⟨10, 26, 9, 5⟩) =
       some 27 ∧
     (fetchWeatherAndTime okUSAResp TimeApiOutcome.threw ⟨10, 26, 9, 5⟩).localTime =
       some ⟨10, 26, 9, 5⟩ ∧
     dateTimeString (fetchWeatherAndTime okUSAResp TimeApiOutcome.threw ⟨10, 26, 9, 5⟩)
       ⟨10, 26, 9, 5⟩ = formatDateTime ⟨10, 26, 9, 5⟩ ∧
     (fetchWeatherAndTime okUSAResp TimeApiOutcome.threw ⟨10, 26, 9, 5⟩).iconUrl =
       LOCAL_BASE ++ "/default.svg") :=
  ⟨Or.inr (Or.inr rfl),
   claim7_fetch_failure_fallback okUSAResp TimeApiOutcome.threw ⟨10, 26, 9, 5⟩
     (Or.inr (Or.inr rfl))⟩

/-- C8 counterexample: a successful provider response with country
`"United States of America"` (here `okUSAResp`, code 1003, day flag)
whose secondary time-API fetch rejects reaches the `catch` block, which
resets the Fahrenheit flag to false and the icon to the default — so the
unit is not Fahrenheit although the country field is the USA, falsifying
the claim's "exactly when" over successful provider responses. -/
theorem claim8_counterexample :
    okUSAResp.ok = true ∧ okUSAResp.hasCondition = true ∧
    okUSAResp.country = some "United States of America" ∧
    (fetchWeatherAndTime okUSAResp TimeApiOutcome.threw ⟨10, 26, 9, 5⟩).isFahrenheit =
      false ∧
    (fetchWeatherAndTime okUSAResp TimeApiOutcome.threw ⟨10, 26, 9, 5⟩).iconUrl =
      LOCAL_BASE ++ "/default.svg" := by
  refine ⟨rfl, rfl, rfl, rfl, rfl⟩

/-- C8 (amended): on every provider response that is successful and whose
subsequent time-API interaction does not throw — so the fetch operation
completes without reaching the `catch` block — the display unit defaults
to Fahrenheit exactly when the response's country is
`"United States of America"`; in particular such a response with code
1003, the day flag, and that country yields the Fahrenheit flag and the
partly-cloudy-day icon of variant A, `double-clouds.svg`.  When the
time-API call throws, the `catch` overwrites the state and the unit
falls back to Celsius. -/
theorem claim8_amended_usa_fahrenheit (resp : ApiResponse) (timeApi : TimeApiOutcome)
    (now : Moment) (hok : resp.ok = true) (hc : resp.hasCondition = true)
    (ht : timeApi ≠ TimeApiOutcome.threw) :
    ((fetchWeatherAndTime resp timeApi now).isFahrenheit = true ↔
      resp.country = some "United States of America") ∧
    (resp.code = 1003 → resp.is_day = 1 →
      resp.country = some "United States of America" →
      (fetchWeatherAndTime resp timeApi now).isFahrenheit = true ∧
      (fetchWeatherAndTime resp timeApi now).iconUrl =
        LOCAL_BASE ++ "/" ++ "double-clouds.svg") := by
  unfold fetchWeatherAndTime
  rw [if_pos ⟨hok, hc⟩, if_neg ht]
  constructor
  · show (resp.country == some "United States of America") = true ↔ _
    exact beq_iff_eq
  · intro h3 h4 h5
    refine ⟨?_, ?_⟩
    · show (resp.country == some "United States of America") = true
      exact beq_iff_eq.mpr h5
    · show LOCAL_BASE ++ "/" ++
        getIconFilename (if resp.code = 0 then 1000 else resp.code)
          (if resp.is_day = 1 then TimeOfDay.day else TimeOfDay.night) = _
      rw [h3, h4]
      decide

/-- Witness for C8 (amended) at the concrete successful response
`okUSAResp` with a completed time-API interaction. -/
theorem claim8_amended_usa_fahrenheit_witness :
    (okUSAResp.ok = true ∧ okUSAResp.hasCondition = true ∧
     TimeApiOutcome.okDateTime ⟨10, 26, 9, 5⟩ ≠ TimeApiOutcome.threw ∧
     okUSAResp.code = 1003 ∧ okUSAResp.is_day = 1 ∧
     okUSAResp.country = some "United States of America") ∧
    ((fetchWeatherAndTime okUSAResp (TimeApiOutcome.okDateTime ⟨10, 26, 9, 5⟩)
        ⟨10, 26, 9, 5⟩).isFahrenheit = true ∧
     (fetchWeatherAndTime okUSAResp (TimeApiOutcome.okDateTime ⟨10, 26, 9, 5⟩)
        ⟨10, 26, 9, 5⟩).iconUrl = LOCAL_BASE ++ "/" ++ "double-clouds.svg") :=
  ⟨⟨rfl, rfl, by decide, rfl, rfl, rfl⟩,
   (claim8_amended_usa_fahrenheit okUSAResp (TimeApiOutcome.okDateTime ⟨10, 26, 9, 5⟩)
      ⟨10, 26, 9, 5⟩ rfl rfl (by decide)).2 rfl rfl rfl⟩

/-- C10 counterexample: a successful provider response reporting
condition code 0 (`zeroCodeResp`, day flag set) whose secondary time-API
fetch rejects reaches the `catch` block, which overwrites the icon URL
with the default — the displayed icon is `default.svg` and not the
clear-family `sunny.svg`, falsifying the claim over the fetch-success
path. -/
theorem claim10_counterexample :
    zeroCodeResp.ok = true ∧ zeroCodeResp.hasCondition = true ∧
    zeroCodeResp.code = 0 ∧ zeroCodeResp.is_day = 1 ∧
    (fetchWeatherAndTime zeroCodeResp TimeApiOutcome.threw ⟨10, 26, 9, 5⟩).iconUrl =
      LOCAL_BASE ++ "/default.svg" ∧
    (fetchWeatherAndTime zeroCodeResp TimeApiOutcome.threw ⟨10, 26, 9, 5⟩).iconUrl ≠
      LOCAL_BASE ++ "/" ++ "sunny.svg" := by
  refine ⟨rfl, rfl, rfl, rfl, rfl, by decide⟩

/-- C10 (amended): in every fetch-success path that completes without
the time-API interaction throwing, a falsy provider condition code (0 in
the integer model of `code || 1000`) is replaced by 1000 before icon
resolution, so the displayed icon is the clear/sunny-family icon for the
current day/night flag — `sunny.svg` by day, `clear-moon.svg` otherwise —
and not the `default.svg` that the resolver itself returns for the
unrecognized code 0.  When the time-API call throws, the `catch`
overwrites the icon with the default instead. -/
theorem claim10_amended_falsy_code_replaced (resp : ApiResponse)
    (timeApi : TimeApiOutcome) (now : Moment) (hok : resp.ok = true)
    (hc : resp.hasCondition = true) (ht : timeApi ≠ TimeApiOutcome.threw)
    (hz : resp.code = 0) :
    (fetchWeatherAndTime resp timeApi now).iconUrl =
      LOCAL_BASE ++ "/" ++ getIconFilename 1000
        (if resp.is_day = 1 then TimeOfDay.day else TimeOfDay.night) ∧
    (resp.is_day = 1 →
      (fetchWeatherAndTime resp timeApi now).iconUrl = LOCAL_BASE ++ "/" ++ "sunny.svg") ∧
    (resp.is_day ≠ 1 →
      (fetchWeatherAndTime resp timeApi now).iconUrl = LOCAL_BASE ++ "/" ++ "clear-moon.svg") ∧
    (∀ t, getIconFilename 0 t = "default.svg") := by
  have hicon : (fetchWeatherAndTime resp timeApi now).iconUrl =
      LOCAL_BASE ++ "/" ++ getIconFilename 1000
        (if resp.is_day = 1 then TimeOfDay.day else TimeOfDay.night) := by
    unfold fetchWeatherAndTime
    rw [if_pos ⟨hok, hc⟩, if_neg ht]
    show LOCAL_BASE ++ "/" ++
        getIconFilename (if resp.code = 0 then 1000 else resp.code)
          (if resp.is_day = 1 then TimeOfDay.day else TimeOfDay.night) = _
    rw [hz]
    rfl
  refine ⟨hicon, ?_, ?_, by decide⟩
  · intro hd
    rw [hicon, if_pos hd]
    decide
  · intro hd
    rw [hicon, if_neg hd]
    decide

/-- Witness for C10 (amended) at the concrete response `zeroCodeResp`
(code 0, day flag set) with a skipped time-API call. -/
theorem claim10_amended_falsy_code_replaced_witness :
    (zeroCodeResp.ok = true ∧ zeroCodeResp.hasCondition = true ∧
     TimeApiOutcome.noCoords ≠ TimeApiOutcome.threw ∧
     zeroCodeResp.code = 0 ∧ zeroCodeResp.is_day = 1) ∧
    (fetchWeatherAndTime zeroCodeResp TimeApiOutcome.noCoords ⟨10, 26, 9, 5⟩).iconUrl =
      LOCAL_BASE ++ "/" ++ "sunny.svg" :=
  ⟨⟨rfl, rfl, by decide, rfl, rfl⟩,
   (claim10_amended_falsy_code_replaced zeroCodeResp TimeApiOutcome.noCoords
      ⟨10, 26, 9, 5⟩ rfl rfl (by decide) rfl).2.1 rfl⟩
